import Mathlib

/-!
# Verification of the frisquet-connect temperature-extraction core

Shallow embedding of the repository's Home Assistant temperature pipeline:

* `src/datasource/ha.rs` — `HomeAssistantClient` (construction, URL
  normalisation, `get_state` response handling) and the `State` data shape;
* `src/datasource/externaltemperature/homeassistant/mod.rs` —
  `get_ha_temperature`, the two-mode extraction routine, and its error
  messages.

The HTTP exchange itself is external I/O; it enters the embedding as an
explicit `FetchOutcome` parameter (status, body, decoded state, or a network
failure).  Everything after the exchange is translated function-by-function
from the Rust source.
-/

set_option autoImplicit false

namespace Frisquet

/-- ASCII decimal digit test, matching Rust's `u8::is_ascii_digit`. -/
def isAsciiDigit (c : Char) : Bool :=
  '0' ≤ c && c ≤ '9'

/-- Numeric value of a list of decimal digit characters (most significant
first), as accumulated by a decimal parser. -/
def digitsVal (ds : List Char) : Nat :=
  ds.foldl (fun n c => 10 * n + (c.toNat - '0'.toNat)) 0

/-- Result of Rust's `str::parse::<f32>`.  The grammar (sign, digits, optional
fraction, optional exponent, and the case-insensitive special literals `inf`,
`infinity`, `nan`) is modelled exactly; a finite result is kept as the exact
decimal value `mantissa * 10 ^ exp10` (the final rounding of that value to the
nearest `f32`, including overflow to infinity, is abstracted away — the spec
itself states properties "modulo standard floating-point parse precision"). -/
inductive F32 where
  | finite (mantissa : Int) (exp10 : Int)
  | inf (neg : Bool)
  | nan (neg : Bool)
deriving Repr, DecidableEq

/-- Whether a parsed value is finite (not an infinity and not a NaN). -/
def F32.isFinite : F32 → Bool
  | .finite _ _ => true
  | _ => false

/-- The exact rational value of a finite parse result. -/
def F32.toRat : F32 → Option Rat
  | .finite m e => some ((m : Rat) * (10 : Rat) ^ e)
  | _ => none

/-- Rust `str::parse::<f32>` (i.e. `f32::from_str`, `core::num::dec2flt`):
an optional sign, then either one of the case-insensitive special literals
`inf` / `infinity` / `nan`, or a decimal number
`Digit+ | Digit+ '.' Digit* | Digit* '.' Digit+` followed by an optional
exponent `('e'|'E') Sign? Digit+`; the whole input must be consumed and at
least one mantissa digit must be present.  Returns `none` exactly when Rust
returns `Err(ParseFloatError)`. -/
def parse_f32 (s : String) : Option F32 :=
  let cs := s.data
  let signRest : Bool × List Char :=
    match cs with
    | '+' :: t => (false, t)
    | '-' :: t => (true, t)
    | t => (false, t)
  let neg := signRest.1
  let rest := signRest.2
  let low := rest.map Char.toLower
  if low = "inf".data ∨ low = "infinity".data then some (.inf neg)
  else if low = "nan".data then some (.nan neg)
  else
    let ipSplit := rest.span isAsciiDigit
    let ip := ipSplit.1
    let rest1 := ipSplit.2
    let fpSplit : List Char × List Char :=
      match rest1 with
      | '.' :: t => t.span isAsciiDigit
      | _ => ([], rest1)
    let fp := fpSplit.1
    let rest2 := fpSplit.2
    if ip = [] ∧ fp = [] then none
    else
      let mantissa : Int :=
        if neg then -(digitsVal (ip ++ fp) : Int) else (digitsVal (ip ++ fp) : Int)
      match rest2 with
      | [] => some (.finite mantissa (-(fp.length : Int)))
      | e :: t =>
        if e = 'e' ∨ e = 'E' then
          let esignRest : Bool × List Char :=
            match t with
            | '+' :: t2 => (false, t2)
            | '-' :: t2 => (true, t2)
            | t2 => (false, t2)
          let eneg := esignRest.1
          let edSplit := esignRest.2.span isAsciiDigit
          let ed := edSplit.1
          if ed = [] ∨ edSplit.2 ≠ [] then none
          else
            let expVal : Int :=
              if eneg then -(digitsVal ed : Int) else (digitsVal ed : Int)
            some (.finite mantissa (expVal - (fp.length : Int)))
        else none

/-- A JSON value, the shape of `serde_json::Value` (`State.attributes` is an
`Option<serde_json::Value>` in `ha.rs`). -/
inductive Json where
  | null
  | bool (b : Bool)
  | num (q : Rat)
  | str (s : String)
  | arr (elems : List Json)
  | obj (fields : List (String × Json))

/-- `serde_json::Value::get` with a string index: a key lookup that yields a
value only on JSON objects; on every other variant it returns `None`. -/
def Json.get (v : Json) (key : String) : Option Json :=
  match v with
  | .obj fields => (fields.find? (fun p => p.1 = key)).map Prod.snd
  | _ => none

/-- `serde_json::Value::as_str`: `Some` exactly on string values. -/
def Json.asStr : Json → Option String
  | .str s => some s
  | _ => none

/-- Whether a JSON value is an object. -/
def Json.isObj : Json → Bool
  | .obj _ => true
  | _ => false

/-- `State` from `ha.rs`: the entity state returned by the hub. -/
structure State where
  state : Option String
  attributes : Option Json
  last_updated : String
  last_changed : String

/-- `config::HAConfig` as read by `get_ha_temperature`: the extraction
configuration (the struct itself lives in the configuration module; its four
fields and their types are fixed by every access in
`homeassistant/mod.rs`). -/
structure HAConfig where
  url : String
  token : String
  entity_id : String
  temperature_field : Option String

/-- `ExternalTemperatureErr`: the domain error type.  Every construction site
in the source (`homeassistant/mod.rs`, including the `From<reqwest::Error>`
impl) builds it via `ExternalTemperatureErr::from(<formatted String>)`, so an
error value produced by the extraction carries exactly one datum: its message
string. -/
structure ExternalTemperatureErr where
  msg : String
deriving Repr, DecidableEq

/-- Rust `str::trim_end_matches` with a single-char pattern: removes every
trailing occurrence of `c`. -/
def trim_end_matches (s : String) (c : Char) : String :=
  String.mk ((s.data.reverse.dropWhile (fun x => x = c)).reverse)

/-- `http::HeaderValue::from_str` succeeds iff every byte of the string is
visible (32–255 except DEL 127) or a horizontal tab.  Bytes ≥ 128 only arise
from chars ≥ 128, all of whose UTF-8 bytes are ≥ 128 and ≠ 127, so the
per-char test is equivalent to the per-byte one. -/
def headerValueValid (s : String) : Bool :=
  s.data.all (fun c => c = '\t' || (32 ≤ c.toNat && c.toNat ≠ 127))

/-- `HomeAssistantClient` from `ha.rs`.  The `reqwest::Client` (10 s timeout,
default `Authorization: Bearer <token>` header) performs the I/O, which the
embedding passes in as a `FetchOutcome`; the client state that matters to the
embedded behaviour is the normalised base URL. -/
structure HomeAssistantClient where
  base_url : String
deriving Repr, DecidableEq

/-- `HomeAssistantClient::new`: builds the bearer header — failing iff the
header value `"Bearer {token}"` is not a valid header value — and sets
`base_url = format!("{}/api", host.trim_end_matches('/'))`.
`Client::builder().build()` with these settings is modelled as always
succeeding. -/
def HomeAssistantClient.new (host : String) (token : String) :
    Except String HomeAssistantClient :=
  if headerValueValid ("Bearer " ++ token) then
    .ok { base_url := trim_end_matches host '/' ++ "/api" }
  else
    .error "failed to parse header value"

/-- The URL requested by `HomeAssistantClient::get_state`:
`format!("{}/states/{}", self.base_url, entity_id)`. -/
def HomeAssistantClient.stateUrl (c : HomeAssistantClient) (entity_id : String) :
    String :=
  c.base_url ++ "/states/" ++ entity_id

/-- One HTTP exchange, as seen by `get_state` after `send()`: either a
response (status, body text, and the result of decoding the body as a
`State`) or a network/timeout failure with the transport error's message. -/
inductive FetchOutcome where
  | response (status : Nat) (body : String) (decoded : Except String State)
  | netErr (msg : String)

/-- `reqwest::StatusCode::is_success`: 2xx. -/
def statusIsSuccess (status : Nat) : Bool :=
  200 ≤ status && status < 300

/-- The response handling of `HomeAssistantClient::get_state`: a transport
failure propagates (`send().await?` / `json().await?`), a non-2xx status
becomes `anyhow!("Failed to get state: {status} - {body}")` (the Rust
`StatusCode` `Display` also appends the canonical reason phrase after the
number; nothing in the contract depends on it), and a 2xx body is decoded as
`State`.  The result depends only on the exchange: client and entity id enter
only the request URL (`stateUrl`). -/
def get_state_result (outcome : FetchOutcome) : Except String State :=
  match outcome with
  | .netErr m => .error m
  | .response status body decoded =>
    if statusIsSuccess status then decoded
    else .error ("Failed to get state: " ++ toString status ++ " - " ++ body)

/-- `HomeAssistantClient::get_state`, with the HTTP exchange supplied as a
parameter. -/
def HomeAssistantClient.get_state (_c : HomeAssistantClient)
    (_entity_id : String) (outcome : FetchOutcome) : Except String State :=
  get_state_result outcome

/-- `get_ha_temperature` from `homeassistant/mod.rs`, translated match-arm by
match-arm: build the client (wrapping a failure as
`"Failed to create HA client: {e}"`), fetch the state (wrapping a failure as
`"Failed to get state for {entity_id}: {e}"`), pick the candidate string —
the state value when `temperature_field` is `None` (the source tests
`is_none()` and later `unwrap()`s the field, which the single `match` here
performs at once), otherwise the named attribute, which must exist and be a
string — and parse it as an `f32` (`ParseFloatError`'s message is the fixed
string `"invalid float literal"`). -/
def get_ha_temperature (config : HAConfig) (outcome : FetchOutcome) :
    Except ExternalTemperatureErr F32 :=
  match HomeAssistantClient.new config.url config.token with
  | .error e => .error ⟨"Failed to create HA client: " ++ e⟩
  | .ok ha_client =>
    match ha_client.get_state config.entity_id outcome with
    | .error e => .error ⟨"Failed to get state for " ++ config.entity_id ++ ": " ++ e⟩
    | .ok response =>
      let temperature_res : Except ExternalTemperatureErr String :=
        match config.temperature_field with
        | none =>
          match response.state with
          | some s => .ok s
          | none => .error ⟨"No state value for " ++ config.entity_id⟩
        | some temp_field =>
          match response.attributes with
          | none => .error ⟨"No attributes for " ++ config.entity_id⟩
          | some attributes =>
            match attributes.get temp_field with
            | none => .error ⟨"No field " ++ temp_field ++ " in attributes"⟩
            | some v =>
              match v.asStr with
              | none => .error ⟨"Field " ++ temp_field ++ " is not a string"⟩
              | some s => .ok s
      match temperature_res with
      | .error e => .error e
      | .ok temperature_str =>
        match parse_f32 temperature_str with
        | some v => .ok v
        | none =>
          .error ⟨"Cannot parse temperature '" ++ temperature_str
                    ++ "': invalid float literal"⟩

/-- The Rust signature takes the configuration by mutable reference
(`config: &mut config::HAConfig`).  The function body contains no assignment
through that reference, so a state-passing rendering of the call returns the
result together with the (unchanged) configuration the caller's reference
denotes after the call. -/
def get_ha_temperature_mut (config : HAConfig) (outcome : FetchOutcome) :
    Except ExternalTemperatureErr F32 × HAConfig :=
  (get_ha_temperature config outcome, config)

example : parse_f32 "21.5" = some (.finite 215 (-1)) := by decide
example : parse_f32 "-3" = some (.finite (-3) 0) := by decide
example : parse_f32 "1e3" = some (.finite 1 3) := by decide
example : parse_f32 "warm" = none := by decide
example : parse_f32 "inf" = some (.inf false) := by decide
example : parse_f32 "" = none := by decide
example : parse_f32 "." = none := by decide
example : parse_f32 "1." = some (.finite 1 0) := by decide
example : parse_f32 ".5" = some (.finite 5 (-1)) := by decide
example : parse_f32 "-1.25e-2" = some (.finite (-125) (-4)) := by decide

/-- A key lookup on a non-object JSON value yields nothing
(`serde_json::Value::get` only indexes objects with a string key). -/
theorem Json.get_eq_none_of_not_obj (v : Json) (key : String)
    (h : v.isObj = false) : v.get key = none := by
  cases v <;> simp_all [Json.get, Json.isObj]

/-- Claim C1 (round-trip): for any candidate string `s` that parses as a
float `f`, extraction returns exactly `f`, in direct-state mode (with the
fetched `state` equal to `some s`) as well as in attribute mode (with
`temperature_field` naming an attribute mapped to the string `s`). -/
theorem get_ha_temperature_roundtrip
    (cfg : HAConfig) (outcome : FetchOutcome) (st : State) (s : String) (f : F32)
    (hTok : headerValueValid ("Bearer " ++ cfg.token) = true)
    (hFetch : get_state_result outcome = .ok st)
    (hParse : parse_f32 s = some f) :
    (cfg.temperature_field = none → st.state = some s →
      get_ha_temperature cfg outcome = .ok f)
    ∧ (∀ fname attrs, cfg.temperature_field = some fname →
        st.attributes = some attrs → attrs.get fname = some (.str s) →
        get_ha_temperature cfg outcome = .ok f) := by
  constructor
  · intro hMode hState
    simp [get_ha_temperature, HomeAssistantClient.new, hTok,
          HomeAssistantClient.get_state, hFetch, hMode, hState, hParse]
  · intro fname attrs hMode hAttrs hGet
    simp [get_ha_temperature, HomeAssistantClient.new, hTok,
          HomeAssistantClient.get_state, hFetch, hMode, hAttrs, hGet,
          Json.asStr, hParse]

/-- Witness for C1: `temperature_field` unset and fetched state `"21.5"`
yields the parse of `"21.5"`, whose exact value is `21.5 = 43/2`. -/
theorem get_ha_temperature_roundtrip_witness :
    parse_f32 "21.5" = some (.finite 215 (-1))
    ∧ get_ha_temperature ⟨"http://hub", "token", "sensor.outdoor", none⟩
        (.response 200 "" (.ok ⟨some "21.5", none, "", ""⟩))
      = .ok (.finite 215 (-1))
    ∧ (F32.finite 215 (-1)).toRat = some ((43 : Rat) / 2) :=
  ⟨by decide,
   (get_ha_temperature_roundtrip ⟨"http://hub", "token", "sensor.outdoor", none⟩
      (.response 200 "" (.ok ⟨some "21.5", none, "", ""⟩))
      ⟨some "21.5", none, "", ""⟩ "21.5" (.finite 215 (-1))
      (by decide) rfl (by decide)).1 rfl rfl,
   by simp [F32.toRat]; norm_num⟩

/-- Claim C2: with `temperature_field = some "temperature"` and fetched
attributes mapping `"temperature"` to the string `"23.5"`, extraction returns
`23.5` for every value of the `state` field (the state is never consulted in
attribute mode: it is universally quantified here via `st`). -/
theorem attribute_mode_ignores_state
    (cfg : HAConfig) (outcome : FetchOutcome) (st : State) (attrs : Json)
    (hTok : headerValueValid ("Bearer " ++ cfg.token) = true)
    (hField : cfg.temperature_field = some "temperature")
    (hFetch : get_state_result outcome = .ok st)
    (hAttrs : st.attributes = some attrs)
    (hGet : attrs.get "temperature" = some (.str "23.5")) :
    get_ha_temperature cfg outcome = .ok (.finite 235 (-1))
    ∧ (F32.finite 235 (-1)).toRat = some ((47 : Rat) / 2) := by
  constructor
  · have hParse : parse_f32 "23.5" = some (.finite 235 (-1)) := by decide
    simp [get_ha_temperature, HomeAssistantClient.new, hTok,
          HomeAssistantClient.get_state, hFetch, hField, hAttrs, hGet,
          Json.asStr, hParse]
  · simp [F32.toRat]; norm_num

/-- Witness for C2: the state is `some "sunny"` and is ignored. -/
theorem attribute_mode_ignores_state_witness :
    get_ha_temperature
        ⟨"http://hub", "token", "sensor.weather", some "temperature"⟩
        (.response 200 ""
          (.ok ⟨some "sunny",
                some (.obj [("temperature", .str "23.5"), ("humidity", .str "45")]),
                "", ""⟩))
      = .ok (.finite 235 (-1))
    ∧ (F32.finite 235 (-1)).toRat = some ((47 : Rat) / 2) :=
  attribute_mode_ignores_state
    ⟨"http://hub", "token", "sensor.weather", some "temperature"⟩
    (.response 200 ""
      (.ok ⟨some "sunny",
            some (.obj [("temperature", .str "23.5"), ("humidity", .str "45")]),
            "", ""⟩))
    ⟨some "sunny",
     some (.obj [("temperature", .str "23.5"), ("humidity", .str "45")]), "", ""⟩
    (.obj [("temperature", .str "23.5"), ("humidity", .str "45")])
    (by decide) rfl rfl rfl rfl

/-- Claim C3: in attribute mode the three checks run in order — attributes
present, field present, value is a string — and the first failing check
determines the error; when all pass, the string is parsed.  The single
`match` on the right-hand side states exactly this case analysis. -/
theorem attribute_mode_error_order
    (cfg : HAConfig) (fname : String) (outcome : FetchOutcome) (st : State)
    (hTok : headerValueValid ("Bearer " ++ cfg.token) = true)
    (hField : cfg.temperature_field = some fname)
    (hFetch : get_state_result outcome = .ok st) :
    get_ha_temperature cfg outcome =
      match st.attributes with
      | none => .error ⟨"No attributes for " ++ cfg.entity_id⟩
      | some attributes =>
        match attributes.get fname with
        | none => .error ⟨"No field " ++ fname ++ " in attributes"⟩
        | some v =>
          match v.asStr with
          | none => .error ⟨"Field " ++ fname ++ " is not a string"⟩
          | some s =>
            match parse_f32 s with
            | some f => .ok f
            | none =>
              .error ⟨"Cannot parse temperature '" ++ s
                        ++ "': invalid float literal"⟩ := by
  simp only [get_ha_temperature, HomeAssistantClient.new, hTok, if_true,
             HomeAssistantClient.get_state, hFetch, hField]
  rcases hA : st.attributes with _ | attrs
  · simp [hA]
  · rcases hG : attrs.get fname with _ | v
    · simp [hA, hG]
    · rcases hS : v.asStr with _ | s
      · simp [hA, hG, hS]
      · rcases hP : parse_f32 s with _ | f <;> simp [hA, hG, hS, hP]

/-- Witness for C3, on the spec's own example: attributes `{"humidity": "45"}`
with `temperature_field = some "temperature"` fail the field-presence check,
giving the missing-field error naming `"temperature"`. -/
theorem attribute_mode_error_order_witness :
    get_ha_temperature
        ⟨"http://hub", "token", "sensor.weather", some "temperature"⟩
        (.response 200 ""
          (.ok ⟨some "sunny", some (.obj [("humidity", .str "45")]), "", ""⟩))
      = .error ⟨"No field temperature in attributes"⟩ := by
  have h := attribute_mode_error_order
    ⟨"http://hub", "token", "sensor.weather", some "temperature"⟩ "temperature"
    (.response 200 ""
      (.ok ⟨some "sunny", some (.obj [("humidity", .str "45")]), "", ""⟩))
    ⟨some "sunny", some (.obj [("humidity", .str "45")]), "", ""⟩
    (by decide) rfl rfl
  exact h

/-- Claim C4: in direct-state mode a missing `state` fails with the
missing-state error, whose message is `"No state value for {entity_id}"`
(and hence mentions the entity id); no parsing happens, the error is the
whole result. -/
theorem direct_mode_missing_state
    (cfg : HAConfig) (outcome : FetchOutcome) (st : State)
    (hTok : headerValueValid ("Bearer " ++ cfg.token) = true)
    (hMode : cfg.temperature_field = none)
    (hFetch : get_state_result outcome = .ok st)
    (hState : st.state = none) :
    get_ha_temperature cfg outcome =
      .error ⟨"No state value for " ++ cfg.entity_id⟩ := by
  simp [get_ha_temperature, HomeAssistantClient.new, hTok,
        HomeAssistantClient.get_state, hFetch, hMode, hState]

/-- Witness for C4: `state = null`, `temperature_field` unset. -/
theorem direct_mode_missing_state_witness :
    get_ha_temperature ⟨"http://hub", "token", "sensor.outdoor", none⟩
        (.response 200 "" (.ok ⟨none, none, "", ""⟩))
      = .error ⟨"No state value for sensor.outdoor"⟩ :=
  direct_mode_missing_state ⟨"http://hub", "token", "sensor.outdoor", none⟩
    (.response 200 "" (.ok ⟨none, none, "", ""⟩)) ⟨none, none, "", ""⟩
    (by decide) rfl rfl rfl

/-- Claim C5: an unparsable candidate string fails, in either mode, with the
parse error `"Cannot parse temperature '{candidate}': {detail}"` — the
message carries the candidate verbatim and `ParseFloatError`'s diagnostic
`"invalid float literal"`; no default value is substituted. -/
theorem parse_failure_error
    (cfg : HAConfig) (outcome : FetchOutcome) (st : State) (s : String)
    (hTok : headerValueValid ("Bearer " ++ cfg.token) = true)
    (hFetch : get_state_result outcome = .ok st)
    (hParse : parse_f32 s = none) :
    (cfg.temperature_field = none → st.state = some s →
      get_ha_temperature cfg outcome =
        .error ⟨"Cannot parse temperature '" ++ s ++ "': invalid float literal"⟩)
    ∧ (∀ fname attrs, cfg.temperature_field = some fname →
        st.attributes = some attrs → attrs.get fname = some (.str s) →
        get_ha_temperature cfg outcome =
          .error ⟨"Cannot parse temperature '" ++ s
                    ++ "': invalid float literal"⟩) := by
  constructor
  · intro hMode hState
    simp [get_ha_temperature, HomeAssistantClient.new, hTok,
          HomeAssistantClient.get_state, hFetch, hMode, hState, hParse]
  · intro fname attrs hMode hAttrs hGet
    simp [get_ha_temperature, HomeAssistantClient.new, hTok,
          HomeAssistantClient.get_state, hFetch, hMode, hAttrs, hGet,
          Json.asStr, hParse]

/-- Witness for C5: `state = "warm"`, `temperature_field` unset; the error
message contains the literal string `"warm"`. -/
theorem parse_failure_error_witness :
    parse_f32 "warm" = none
    ∧ get_ha_temperature ⟨"http://hub", "token", "sensor.outdoor", none⟩
        (.response 200 "" (.ok ⟨some "warm", none, "", ""⟩))
      = .error ⟨"Cannot parse temperature 'warm': invalid float literal"⟩ :=
  ⟨by decide,
   (parse_failure_error ⟨"http://hub", "token", "sensor.outdoor", none⟩
      (.response 200 "" (.ok ⟨some "warm", none, "", ""⟩))
      ⟨some "warm", none, "", ""⟩ "warm" (by decide) rfl (by decide)).1 rfl rfl⟩

/-- `as_str` succeeds only on JSON strings, and returns their content. -/
theorem Json.asStr_eq_some (v : Json) (s : String) (h : v.asStr = some s) :
    v = .str s := by
  cases v <;> simp_all [Json.asStr]

/-- The missing-field message never coincides with the missing-attributes
message, for any field name and entity id (they differ at the fourth
character). -/
theorem noField_msg_ne_noAttributes_msg (f e : String) :
    ("No field " ++ f ++ " in attributes" : String)
      ≠ "No attributes for " ++ e := by
  intro h
  have h' := congrArg String.data h
  rw [String.data_append, String.data_append, String.data_append] at h'
  have e1 : "No field ".data = ['N','o',' ','f','i','e','l','d',' '] := rfl
  have e2 : "No attributes for ".data
      = ['N','o',' ','a','t','t','r','i','b','u','t','e','s',' ','f','o','r',' '] := rfl
  rw [e1, e2] at h'
  simp at h'

/-- The missing-field message never coincides with the non-string-field
message, for any field name (they differ at the first character). -/
theorem noField_msg_ne_nonString_msg (f g : String) :
    ("No field " ++ f ++ " in attributes" : String)
      ≠ "Field " ++ g ++ " is not a string" := by
  intro h
  have h' := congrArg String.data h
  rw [String.data_append, String.data_append, String.data_append,
      String.data_append] at h'
  have e1 : "No field ".data = ['N','o',' ','f','i','e','l','d',' '] := rfl
  have e2 : "Field ".data = ['F','i','e','l','d',' '] := rfl
  rw [e1, e2] at h'
  simp at h'

/-- Counterexample to claim C6: Rust's `f32` parser accepts the literal
`"inf"` (case-insensitively, as well as `"infinity"` and `"nan"`), so a
direct-state extraction from `state = "inf"` succeeds with positive
infinity — a successful result is not always finite. -/
theorem extraction_can_succeed_with_infinity :
    get_ha_temperature ⟨"http://hub", "token", "sensor.outdoor", none⟩
        (.response 200 "" (.ok ⟨some "inf", none, "", ""⟩))
      = .ok (.inf false)
    ∧ (F32.inf false).isFinite = false := by
  exact ⟨rfl, rfl⟩

/-- Claim C6, amended: whenever extraction succeeds, the returned value is
exactly what the float parser produced from the candidate string drawn from
the configured source (direct state, or the named attribute) of the
successfully fetched state — never a coerced or defaulted value; finiteness,
however, is not guaranteed (see the counterexample). -/
theorem success_value_is_parse_of_candidate
    (cfg : HAConfig) (outcome : FetchOutcome) (v : F32)
    (h : get_ha_temperature cfg outcome = .ok v) :
    ∃ st s, get_state_result outcome = .ok st ∧ parse_f32 s = some v ∧
      ((cfg.temperature_field = none ∧ st.state = some s)
        ∨ (∃ fname attrs, cfg.temperature_field = some fname
            ∧ st.attributes = some attrs
            ∧ attrs.get fname = some (.str s))) := by
  by_cases hTok : headerValueValid ("Bearer " ++ cfg.token) = true
  · rcases hF : get_state_result outcome with e | st
    · simp [get_ha_temperature, HomeAssistantClient.new, hTok,
            HomeAssistantClient.get_state, hF] at h
    · rcases hMode : cfg.temperature_field with _ | fname
      · rcases hS : st.state with _ | s
        · simp [get_ha_temperature, HomeAssistantClient.new, hTok,
                HomeAssistantClient.get_state, hF, hMode, hS] at h
        · rcases hP : parse_f32 s with _ | f
          · simp [get_ha_temperature, HomeAssistantClient.new, hTok,
                  HomeAssistantClient.get_state, hF, hMode, hS, hP] at h
          · simp [get_ha_temperature, HomeAssistantClient.new, hTok,
                  HomeAssistantClient.get_state, hF, hMode, hS, hP] at h
            exact ⟨st, s, rfl, h ▸ hP, .inl ⟨rfl, hS⟩⟩
      · rcases hA : st.attributes with _ | attrs
        · simp [get_ha_temperature, HomeAssistantClient.new, hTok,
                HomeAssistantClient.get_state, hF, hMode, hA] at h
        · rcases hG : attrs.get fname with _ | w
          · simp [get_ha_temperature, HomeAssistantClient.new, hTok,
                  HomeAssistantClient.get_state, hF, hMode, hA, hG] at h
          · rcases hW : w.asStr with _ | s
            · simp [get_ha_temperature, HomeAssistantClient.new, hTok,
                    HomeAssistantClient.get_state, hF, hMode, hA, hG, hW] at h
            · rcases hP : parse_f32 s with _ | f
              · simp [get_ha_temperature, HomeAssistantClient.new, hTok,
                      HomeAssistantClient.get_state, hF, hMode, hA, hG, hW,
                      hP] at h
              · simp [get_ha_temperature, HomeAssistantClient.new, hTok,
                      HomeAssistantClient.get_state, hF, hMode, hA, hG, hW,
                      hP] at h
                exact ⟨st, s, rfl, h ▸ hP,
                       .inr ⟨fname, attrs, rfl, hA,
                             (Json.asStr_eq_some w s hW) ▸ hG⟩⟩
  · rw [Bool.not_eq_true] at hTok
    simp [get_ha_temperature, HomeAssistantClient.new, hTok] at h

/-- Witness for the amended C6: a concrete successful extraction, from which
the existence of the originating candidate follows by the theorem. -/
theorem success_value_is_parse_of_candidate_witness :
    ∃ st s,
      get_state_result (.response 200 "" (.ok ⟨some "21.5", none, "", ""⟩))
        = .ok st
      ∧ parse_f32 s = some (.finite 215 (-1))
      ∧ (((⟨"http://hub", "token", "sensor.outdoor", none⟩ :
            HAConfig).temperature_field = none ∧ st.state = some s)
          ∨ (∃ fname attrs,
              (⟨"http://hub", "token", "sensor.outdoor", none⟩ :
                HAConfig).temperature_field = some fname
              ∧ st.attributes = some attrs
              ∧ attrs.get fname = some (.str s))) :=
  success_value_is_parse_of_candidate
    ⟨"http://hub", "token", "sensor.outdoor", none⟩
    (.response 200 "" (.ok ⟨some "21.5", none, "", ""⟩))
    (.finite 215 (-1)) rfl

/-- Counterexample to claim C7: two inputs triggering different rows of the
error taxonomy (attributes absent vs. named field absent) both yield plain
`ExternalTemperatureErr` values, and that type is fully determined by its
message string — there is no further "kind" component a caller could inspect,
so the rows are distinguishable only by the formatted message text. -/
theorem error_has_no_kind_beyond_message :
    get_ha_temperature ⟨"http://hub", "token", "sensor.outdoor", some "temperature"⟩
        (.response 200 "" (.ok ⟨some "21.5", none, "", ""⟩))
      = .error ⟨"No attributes for sensor.outdoor"⟩
    ∧ get_ha_temperature ⟨"http://hub", "token", "sensor.outdoor", some "temperature"⟩
        (.response 200 ""
          (.ok ⟨some "21.5", some (.obj [("humidity", .str "45")]), "", ""⟩))
      = .error ⟨"No field temperature in attributes"⟩
    ∧ (∀ e1 e2 : ExternalTemperatureErr, e1.msg = e2.msg → e1 = e2) := by
  refine ⟨rfl, rfl, ?_⟩
  intro e1 e2 h
  cases e1; cases e2; cases h; rfl

/-- Claim C7, amended: every failure is surfaced as the single
string-carrying `ExternalTemperatureErr`; a value of that type is equal to
another exactly when the messages coincide, so failure causes are
distinguishable only through the message text — which does keep distinct
rows apart, e.g. a missing-field failure and a non-string-field failure
always produce different error values for any field name. -/
theorem errors_distinguished_by_message_only
    (cfg : HAConfig) (fname : String) (o1 o2 : FetchOutcome)
    (st1 st2 : State) (attrs1 attrs2 : Json) (w : Json)
    (hTok : headerValueValid ("Bearer " ++ cfg.token) = true)
    (hField : cfg.temperature_field = some fname)
    (hF1 : get_state_result o1 = .ok st1)
    (hA1 : st1.attributes = some attrs1)
    (hG1 : attrs1.get fname = none)
    (hF2 : get_state_result o2 = .ok st2)
    (hA2 : st2.attributes = some attrs2)
    (hG2 : attrs2.get fname = some w)
    (hW : w.asStr = none) :
    get_ha_temperature cfg o1
      = .error ⟨"No field " ++ fname ++ " in attributes"⟩
    ∧ get_ha_temperature cfg o2
      = .error ⟨"Field " ++ fname ++ " is not a string"⟩
    ∧ get_ha_temperature cfg o1 ≠ get_ha_temperature cfg o2
    ∧ (∀ e1 e2 : ExternalTemperatureErr, e1 = e2 ↔ e1.msg = e2.msg) := by
  have h1 : get_ha_temperature cfg o1
      = .error ⟨"No field " ++ fname ++ " in attributes"⟩ := by
    simp [get_ha_temperature, HomeAssistantClient.new, hTok,
          HomeAssistantClient.get_state, hF1, hField, hA1, hG1]
  have h2 : get_ha_temperature cfg o2
      = .error ⟨"Field " ++ fname ++ " is not a string"⟩ := by
    simp [get_ha_temperature, HomeAssistantClient.new, hTok,
          HomeAssistantClient.get_state, hF2, hField, hA2, hG2, hW]
  refine ⟨h1, h2, ?_, ?_⟩
  · rw [h1, h2]
    intro hc
    have : ("No field " ++ fname ++ " in attributes" : String)
        = "Field " ++ fname ++ " is not a string" := by
      injection hc with hc'
      exact congrArg ExternalTemperatureErr.msg hc'
    exact noField_msg_ne_nonString_msg fname fname this
  · intro e1 e2
    constructor
    · intro h; rw [h]
    · intro h; cases e1; cases e2; cases h; rfl

/-- Witness for the amended C7: a missing field (`{"humidity": "45"}`) and a
non-string field (`{"temperature": true}`) under the same configuration. -/
theorem errors_distinguished_by_message_only_witness :
    get_ha_temperature
        ⟨"http://hub", "token", "sensor.weather", some "temperature"⟩
        (.response 200 ""
          (.ok ⟨some "sunny", some (.obj [("humidity", .str "45")]), "", ""⟩))
      = .error ⟨"No field " ++ "temperature" ++ " in attributes"⟩
    ∧ get_ha_temperature
        ⟨"http://hub", "token", "sensor.weather", some "temperature"⟩
        (.response 200 ""
          (.ok ⟨some "sunny", some (.obj [("temperature", .bool true)]), "", ""⟩))
      = .error ⟨"Field " ++ "temperature" ++ " is not a string"⟩
    ∧ get_ha_temperature
        ⟨"http://hub", "token", "sensor.weather", some "temperature"⟩
        (.response 200 ""
          (.ok ⟨some "sunny", some (.obj [("humidity", .str "45")]), "", ""⟩))
      ≠ get_ha_temperature
        ⟨"http://hub", "token", "sensor.weather", some "temperature"⟩
        (.response 200 ""
          (.ok ⟨some "sunny", some (.obj [("temperature", .bool true)]), "", ""⟩))
    ∧ (∀ e1 e2 : ExternalTemperatureErr, e1 = e2 ↔ e1.msg = e2.msg) :=
  errors_distinguished_by_message_only
    ⟨"http://hub", "token", "sensor.weather", some "temperature"⟩ "temperature"
    (.response 200 ""
      (.ok ⟨some "sunny", some (.obj [("humidity", .str "45")]), "", ""⟩))
    (.response 200 ""
      (.ok ⟨some "sunny", some (.obj [("temperature", .bool true)]), "", ""⟩))
    ⟨some "sunny", some (.obj [("humidity", .str "45")]), "", ""⟩
    ⟨some "sunny", some (.obj [("temperature", .bool true)]), "", ""⟩
    (.obj [("humidity", .str "45")]) (.obj [("temperature", .bool true)])
    (.bool true)
    (by decide) rfl rfl rfl rfl rfl rfl rfl rfl

/-- Claim C8: a successfully constructed client has
`base_url = {host with trailing slashes stripped} ++ "/api"`, and the URL of
the `get_state` request is exactly
`{host without trailing slashes}/api/states/{entity_id}`. -/
theorem client_url_normalisation
    (host token entity_id : String) (c : HomeAssistantClient)
    (hNew : HomeAssistantClient.new host token = .ok c) :
    c.base_url = trim_end_matches host '/' ++ "/api"
    ∧ c.stateUrl entity_id
        = trim_end_matches host '/' ++ "/api/states/" ++ entity_id := by
  unfold HomeAssistantClient.new at hNew
  split at hNew
  · injection hNew with h
    subst h
    refine ⟨rfl, ?_⟩
    show (trim_end_matches host '/' ++ "/api") ++ "/states/" ++ entity_id = _
    rw [String.append_assoc (trim_end_matches host '/') "/api" "/states/"]
    rfl
  · exact absurd hNew (by simp)

/-- Witness for C8: host `"http://hub/"` (trailing slash) and entity
`"sensor.outdoor"` give the request URL `"http://hub/api/states/sensor.outdoor"`. -/
theorem client_url_normalisation_witness :
    HomeAssistantClient.new "http://hub/" "token" = .ok ⟨"http://hub/api"⟩
    ∧ HomeAssistantClient.stateUrl ⟨"http://hub/api"⟩ "sensor.outdoor"
        = trim_end_matches "http://hub/" '/' ++ "/api/states/" ++ "sensor.outdoor"
    ∧ HomeAssistantClient.stateUrl ⟨"http://hub/api"⟩ "sensor.outdoor"
        = "http://hub/api/states/sensor.outdoor" :=
  ⟨rfl,
   (client_url_normalisation "http://hub/" "token" "sensor.outdoor"
      ⟨"http://hub/api"⟩ rfl).2,
   rfl⟩

/-- Claim C9: the extraction never mutates the configuration it receives by
mutable reference — the configuration after any call (any outcome, success or
error) is the configuration that was passed in, field by field. -/
theorem config_never_mutated (config : HAConfig) (outcome : FetchOutcome) :
    (get_ha_temperature_mut config outcome).2 = config
    ∧ (get_ha_temperature_mut config outcome).2.url = config.url
    ∧ (get_ha_temperature_mut config outcome).2.token = config.token
    ∧ (get_ha_temperature_mut config outcome).2.entity_id = config.entity_id
    ∧ (get_ha_temperature_mut config outcome).2.temperature_field
        = config.temperature_field :=
  ⟨rfl, rfl, rfl, rfl, rfl⟩

/-- Claim C10 (implicit): in attribute mode, attributes that are present but
not a JSON object (array, string, number, boolean, or null) fail the key
lookup, so extraction reports the missing-field error — not the
missing-attributes error, whose message it can never equal. -/
theorem non_object_attributes_give_missing_field
    (cfg : HAConfig) (fname : String) (outcome : FetchOutcome) (st : State)
    (attrs : Json)
    (hTok : headerValueValid ("Bearer " ++ cfg.token) = true)
    (hField : cfg.temperature_field = some fname)
    (hFetch : get_state_result outcome = .ok st)
    (hAttrs : st.attributes = some attrs)
    (hNotObj : attrs.isObj = false) :
    get_ha_temperature cfg outcome
      = .error ⟨"No field " ++ fname ++ " in attributes"⟩
    ∧ get_ha_temperature cfg outcome
      ≠ .error ⟨"No attributes for " ++ cfg.entity_id⟩ := by
  have hG : attrs.get fname = none := Json.get_eq_none_of_not_obj attrs fname hNotObj
  have h1 : get_ha_temperature cfg outcome
      = .error ⟨"No field " ++ fname ++ " in attributes"⟩ := by
    simp [get_ha_temperature, HomeAssistantClient.new, hTok,
          HomeAssistantClient.get_state, hFetch, hField, hAttrs, hG]
  refine ⟨h1, ?_⟩
  rw [h1]
  intro hc
  injection hc with hc'
  exact noField_msg_ne_noAttributes_msg fname cfg.entity_id
    (congrArg ExternalTemperatureErr.msg hc')

/-- Witness for C10: attributes equal to the JSON array `[]`. -/
theorem non_object_attributes_give_missing_field_witness :
    get_ha_temperature
        ⟨"http://hub", "token", "sensor.weather", some "temperature"⟩
        (.response 200 "" (.ok ⟨some "sunny", some (.arr []), "", ""⟩))
      = .error ⟨"No field " ++ "temperature" ++ " in attributes"⟩
    ∧ get_ha_temperature
        ⟨"http://hub", "token", "sensor.weather", some "temperature"⟩
        (.response 200 "" (.ok ⟨some "sunny", some (.arr []), "", ""⟩))
      ≠ .error ⟨"No attributes for "
          ++ (⟨"http://hub", "token", "sensor.weather", some "temperature"⟩ :
                HAConfig).entity_id⟩ :=
  non_object_attributes_give_missing_field
    ⟨"http://hub", "token", "sensor.weather", some "temperature"⟩ "temperature"
    (.response 200 "" (.ok ⟨some "sunny", some (.arr []), "", ""⟩))
    ⟨some "sunny", some (.arr []), "", ""⟩ (.arr [])
    (by decide) rfl rfl rfl rfl

end Frisquet
